import Mathlib

/-!
Verification of the document navigation and normalization pipeline of
`scripts/parse_xml.py` (medical_data_analytics).

The development shallowly embeds the relevant parts of the source:

* an XML element tree (`Xml`) with the lxml/ElementPath lookups the
  extractors use (`find(".//tag")`, child paths, attribute predicates);
* the Python string primitives the code relies on (`strip`, `lower`,
  `split`/`join`, `replace`, `title`, `capitalize`, `int(...)`);
* CPython `datetime.strptime` for the formats used by the code
  (`%Y%m%d%H%M%S`, `%Y%m%d`, `%m/%d/%Y %I:%M:%S %p`), including its
  branch preference (two-digit before one-digit fields) and the
  `datetime` range limits (years 1 to 9999);
* the extractors `parse_patient_data`, `parse_hospitalizations`,
  `parse_diagnoses`, `parse_medications`, the date normalizers
  `parse_hospitalization_date` / `parse_ccda_date`, the dosage splitter
  `extract_dosage`, and the per-document orchestration of
  `process_xml_files`.

Fallible Python code is embedded in `Except PyErr`; an uncaught Python
exception is an `Except.error`.  Case mapping is modelled on ASCII,
which is what every claim exercises.
-/

/-- Python exception kinds that the embedded code can raise. -/
inductive PyErr where
  | valueError
  | overflowError
  | indexError
  | keyError
  | attributeError
deriving DecidableEq, Repr

deriving instance DecidableEq for Except

/- ----------------------------------------------------------------
   Python string primitives (on `List Char`)
   ---------------------------------------------------------------- -/

/-- Python whitespace (`str.strip` / `str.split` default set). -/
def pyIsSpace (c : Char) : Bool :=
  c = ' ' || c = '\t' || c = '\n' || c = '\r' || c = '\x0b' || c = '\x0c'

/-- `str.strip()`. -/
def pyStripL (cs : List Char) : List Char :=
  ((cs.dropWhile pyIsSpace).reverse.dropWhile pyIsSpace).reverse

def pyStrip (s : String) : String :=
  ⟨pyStripL s.data⟩

/-- ASCII `str.lower()`. -/
def pyLower (s : String) : String :=
  ⟨s.data.map Char.toLower⟩

/-- `needle` occurs as a contiguous substring (Python `in`). -/
def containsSub (cs needle : List Char) : Bool :=
  match cs with
  | [] => needle.isEmpty
  | _ :: rest => needle.isPrefixOf cs || containsSub rest needle

/-- `str.replace(old, new)`, non-overlapping, left to right.  The
fuel starts at `cs.length + 1`; each step consumes at least one
character of `cs` when `old` is nonempty, so the fuel never runs out. -/
def replaceAux (old new : List Char) : Nat → List Char → List Char
  | 0, cs => cs
  | fuel + 1, cs =>
    if old.isPrefixOf cs ∧ old ≠ [] then
      new ++ replaceAux old new fuel (cs.drop old.length)
    else
      match cs with
      | [] => []
      | c :: rest => c :: replaceAux old new fuel rest

def pyReplaceL (cs old new : List Char) : List Char :=
  if old = [] then (cs.flatMap fun c => new ++ [c]) ++ new
  else replaceAux old new (cs.length + 1) cs

def pyReplace (s old new : String) : String :=
  ⟨pyReplaceL s.data old.data new.data⟩

/-- `str.split()` (no argument): split on whitespace runs, dropping
empty pieces.  Fuel starts at `cs.length + 1`; every step consumes at
least one character, so it never runs out. -/
def pySplitAux : Nat → List Char → List (List Char)
  | 0, _ => []
  | _, [] => []
  | fuel + 1, c :: rest =>
    if pyIsSpace c then pySplitAux fuel rest
    else
      (c :: rest).takeWhile (fun d => !pyIsSpace d) ::
        pySplitAux fuel ((c :: rest).dropWhile (fun d => !pyIsSpace d))

def pySplitL (cs : List Char) : List (List Char) :=
  pySplitAux (cs.length + 1) cs

/-- `" ".join(pieces)`. -/
def joinSpaceL : List (List Char) → List Char
  | [] => []
  | [w] => w
  | w :: rest => w ++ ' ' :: joinSpaceL rest

/-- `" ".join(s.split())`: collapse internal whitespace. -/
def collapseWS (s : String) : String :=
  ⟨joinSpaceL (pySplitL s.data)⟩

/-- Python `str.title()` (ASCII letters). -/
def pyTitleAux : Bool → List Char → List Char
  | _, [] => []
  | prevAlpha, c :: rest =>
    let c' := if c.isAlpha then (if prevAlpha then c.toLower else c.toUpper) else c
    c' :: pyTitleAux c.isAlpha rest

def pyTitle (s : String) : String :=
  ⟨pyTitleAux false s.data⟩

/-- Python `str.capitalize()`. -/
def pyCapitalize (s : String) : String :=
  match s.data with
  | [] => ⟨[]⟩
  | c :: rest => ⟨c.toUpper :: rest.map Char.toLower⟩

/-- Digit value of a digit character. -/
def digitVal (c : Char) : Nat := c.toNat - 48

/-- Value of a digit string (most significant first). -/
def digitsVal (cs : List Char) : Nat :=
  cs.foldl (fun acc c => 10 * acc + digitVal c) 0

/-- Python `int(s)` on a decimal string: surrounding whitespace, an
optional sign, then at least one digit; anything else raises
`ValueError`. -/
def pyInt (s : String) : Except PyErr Int :=
  let core : List Char → Except PyErr Nat := fun ds =>
    if ds ≠ [] ∧ ds.all Char.isDigit then .ok (digitsVal ds) else .error .valueError
  match pyStripL s.data with
  | [] => .error .valueError
  | c :: ds =>
    if c = '+' then (core ds).map fun n => (n : Int)
    else if c = '-' then (core ds).map fun n => -(n : Int)
    else (core (c :: ds)).map fun n => (n : Int)

example : pyInt "+05" = .ok 5 := by decide
example : pyInt "-05" = .ok (-5) := by decide
example : pyInt "30" = .ok 30 := by decide
example : pyInt "" = .error .valueError := by decide
example : pyInt "3a" = .error .valueError := by decide
example : pyReplace "tel:555-1212" "tel:" "" = "555-1212" := by decide
example : collapseWS "  a   b  " = "a b" := by decide
example : pyTitle "aspirin low dose" = "Aspirin Low Dose" := by decide
example : containsSub "hp home".data "hp".data = true := by decide

/- ----------------------------------------------------------------
   CPython datetime (proleptic Gregorian, years 1 to 9999)
   ---------------------------------------------------------------- -/

/-- A `datetime.datetime` value (second precision, as used by the code). -/
structure DT where
  year : Nat
  month : Nat
  day : Nat
  hour : Nat
  minute : Nat
  second : Nat
deriving DecidableEq, Repr

def isLeap (y : Nat) : Bool :=
  (y % 4 = 0 && y % 100 ≠ 0) || y % 400 = 0

def daysInMonth (y m : Nat) : Nat :=
  if m = 2 then (if isLeap y then 29 else 28)
  else if m = 4 ∨ m = 6 ∨ m = 9 ∨ m = 11 then 30
  else 31

/-- Days since 0000-03-01 of a civil date (Gregorian, `y ≥ 1`). -/
def civilToDays (y m d : Nat) : Nat :=
  let y' := if m ≤ 2 then y - 1 else y
  let era := y' / 400
  let yoe := y' % 400
  let mp := if m > 2 then m - 3 else m + 9
  let doy := (153 * mp + 2) / 5 + d - 1
  let doe := 365 * yoe + yoe / 4 - yoe / 100 + doy
  era * 146097 + doe

/-- Civil date from days since 0000-03-01. -/
def daysToCivil (n : Nat) : Nat × Nat × Nat :=
  let era := n / 146097
  let doe := n % 146097
  let yoe := (doe - doe / 1460 + doe / 36524 - doe / 146096) / 365
  let y := yoe + era * 400
  let doy := doe - (365 * yoe + yoe / 4 - yoe / 100)
  let mp := (5 * doy + 2) / 153
  let d := doy - (153 * mp + 2) / 5 + 1
  let m := if mp < 10 then mp + 3 else mp - 9
  (if m ≤ 2 then y + 1 else y, m, d)

/-- Seconds since 0000-03-01 00:00:00. -/
def DT.toSecs (t : DT) : Nat :=
  civilToDays t.year t.month t.day * 86400 + t.hour * 3600 + t.minute * 60 + t.second

def DT.ofSecs (n : Nat) : DT :=
  let (y, m, d) := daysToCivil (n / 86400)
  let r := n % 86400
  ⟨y, m, d, r / 3600, r / 60 % 60, r % 60⟩

/-- `datetime.min` (0001-01-01 00:00:00) in seconds. -/
def dtMinSecs : Nat := DT.toSecs ⟨1, 1, 1, 0, 0, 0⟩

/-- `datetime.max` (9999-12-31 23:59:59) in seconds. -/
def dtMaxSecs : Nat := DT.toSecs ⟨9999, 12, 31, 23, 59, 59⟩

/-- The validation done by the `datetime(...)` constructor. -/
def mkDatetime (y m d h mi s : Nat) : Option DT :=
  if 1 ≤ y ∧ y ≤ 9999 ∧ 1 ≤ m ∧ m ≤ 12 ∧ 1 ≤ d ∧ d ≤ daysInMonth y m
      ∧ h ≤ 23 ∧ mi ≤ 59 ∧ s ≤ 59 then
    some ⟨y, m, d, h, mi, s⟩
  else none

/-- `dt - timedelta(seconds=td)`: raises `OverflowError` when the result
leaves the representable `datetime` range. -/
def dtSubSecs (t : DT) (td : Int) : Except PyErr DT :=
  let r : Int := (t.toSecs : Int) - td
  if (dtMinSecs : Int) ≤ r ∧ r ≤ (dtMaxSecs : Int) then
    .ok (DT.ofSecs r.toNat)
  else .error .overflowError

def digitChar : Nat → Char
  | 0 => '0' | 1 => '1' | 2 => '2' | 3 => '3' | 4 => '4'
  | 5 => '5' | 6 => '6' | 7 => '7' | 8 => '8' | _ => '9'

def pad2 (n : Nat) : List Char := [digitChar (n / 10 % 10), digitChar (n % 10)]

def pad4 (n : Nat) : List Char :=
  [digitChar (n / 1000 % 10), digitChar (n / 100 % 10), digitChar (n / 10 % 10), digitChar (n % 10)]

/-- `strftime("%Y-%m-%d %H:%M:%S")`. -/
def fmtCanon (t : DT) : String :=
  ⟨pad4 t.year ++ '-' :: pad2 t.month ++ '-' :: pad2 t.day ++ ' ' ::
    pad2 t.hour ++ ':' :: pad2 t.minute ++ ':' :: pad2 t.second⟩

/-- `strftime("%Y-%m-%d")`. -/
def fmtDateOnly (t : DT) : String :=
  ⟨pad4 t.year ++ '-' :: pad2 t.month ++ '-' :: pad2 t.day⟩

/- ----------------------------------------------------------------
   CPython `_strptime`: numeric fields are matched by regex branches,
   two-digit alternatives before one-digit ones, with backtracking,
   and the whole string must be consumed.
   ---------------------------------------------------------------- -/

/-- One regex branch for a numeric field: a width and a value range. -/
structure FBranch where
  width : Nat
  lo : Nat
  hi : Nat

/-- A token of a strptime format: a numeric field with its branches in
preference order, a literal character, or `%p`. -/
inductive FTok where
  | num (branches : List FBranch)
  | lit (c : Char)
  | ampm

/-- Match one branch: exactly `width` digit characters whose value lies
in `[lo, hi]`.  The formats in the source only use widths 1, 2 and 4. -/
def takeBranch (b : FBranch) (cs : List Char) : Option (Nat × List Char) :=
  let inRange : Nat → List Char → Option (Nat × List Char) := fun v rest =>
    if b.lo ≤ v ∧ v ≤ b.hi then some (v, rest) else none
  match b.width, cs with
  | 1, c :: rest =>
    if c.isDigit then inRange (digitVal c) rest else none
  | 2, c1 :: c2 :: rest =>
    if c1.isDigit ∧ c2.isDigit then inRange (10 * digitVal c1 + digitVal c2) rest else none
  | 4, c1 :: c2 :: c3 :: c4 :: rest =>
    if c1.isDigit ∧ c2.isDigit ∧ c3.isDigit ∧ c4.isDigit then
      inRange (1000 * digitVal c1 + 100 * digitVal c2 + 10 * digitVal c3 + digitVal c4) rest
    else none
  | _, _ => none

/-- Run a format against the whole input, returning the field values
(`%p` yields 0 for AM, 1 for PM).  A numeric field tries its branches
in preference order and backtracks into the next branch when the rest
of the format fails, exactly as the compiled regex does. -/
def runFmt : List FTok → List Char → Option (List Nat)
  | [], [] => some []
  | [], _ :: _ => none
  | .lit c :: ts, xs =>
    match xs with
    | [] => none
    | x :: xs' => if x = c then runFmt ts xs' else none
  | .ampm :: ts, xs =>
    match xs with
    | a :: b :: xs' =>
      if a.toLower = 'a' ∧ b.toLower = 'm' then (runFmt ts xs').map (0 :: ·)
      else if a.toLower = 'p' ∧ b.toLower = 'm' then (runFmt ts xs').map (1 :: ·)
      else none
    | _ => none
  | .num bs :: ts, xs =>
    bs.findSome? fun b =>
      match takeBranch b xs with
      | some (v, rest) => (runFmt ts rest).map (v :: ·)
      | none => none

/-- `%Y`: exactly four digits. -/
def fY : FTok := .num [⟨4, 0, 9999⟩]
/-- `%m`: `1[0-2]|0[1-9]|[1-9]`. -/
def fm : FTok := .num [⟨2, 1, 12⟩, ⟨1, 1, 9⟩]
/-- `%d`: `3[01]|[12]\d|0[1-9]|[1-9]`. -/
def fd : FTok := .num [⟨2, 1, 31⟩, ⟨1, 1, 9⟩]
/-- `%H`: `2[0-3]|[0-1]\d|\d`. -/
def fH : FTok := .num [⟨2, 0, 23⟩, ⟨1, 0, 9⟩]
/-- `%M` and `%S`: `[0-5]\d|\d`. -/
def fMS : FTok := .num [⟨2, 0, 59⟩, ⟨1, 0, 9⟩]
/-- `%I`: `1[0-2]|0[1-9]|[1-9]`. -/
def fI : FTok := .num [⟨2, 1, 12⟩, ⟨1, 1, 9⟩]

/-- `datetime.strptime(s, "%Y%m%d%H%M%S")`. -/
def strptime14 (cs : List Char) : Option DT :=
  match runFmt [fY, fm, fd, fH, fMS, fMS] cs with
  | some [y, m, d, h, mi, s] => mkDatetime y m d h mi s
  | _ => none

/-- `datetime.strptime(s, "%Y%m%d")`. -/
def strptimeYmd (cs : List Char) : Option DT :=
  match runFmt [fY, fm, fd] cs with
  | some [y, m, d] => mkDatetime y m d 0 0 0
  | _ => none

/-- `datetime.strptime(s, "%m/%d/%Y %I:%M:%S %p")`, including the
12-hour to 24-hour conversion done by `_strptime`. -/
def strptimeNarrative (cs : List Char) : Option DT :=
  match runFmt [fm, .lit '/', fd, .lit '/', fY, .lit ' ',
                fI, .lit ':', fMS, .lit ':', fMS, .lit ' ', .ampm] cs with
  | some [m, d, y, i, mi, s, ap] =>
    let h := if ap = 1 then (if i = 12 then 12 else i + 12)
             else (if i = 12 then 0 else i)
    mkDatetime y m d h mi s
  | _ => none

example : strptime14 "20230615140000".data = some ⟨2023, 6, 15, 14, 0, 0⟩ := by decide
example : strptime14 "20231301000000".data = none := by decide
example : strptime14 "20230230120000".data = none := by decide
example : strptime14 "202311000".data = some ⟨2023, 1, 1, 0, 0, 0⟩ := by decide
example : strptime14 "2023061514000".data = some ⟨2023, 6, 15, 14, 0, 0⟩ := by decide
example : strptimeNarrative "06/15/2023 02:30:00 PM".data = some ⟨2023, 6, 15, 14, 30, 0⟩ := by decide
example : strptimeNarrative "6/15/2023 12:05:00 am".data = some ⟨2023, 6, 15, 0, 5, 0⟩ := by decide
example : DT.ofSecs (DT.toSecs ⟨2023, 6, 15, 14, 0, 0⟩) = ⟨2023, 6, 15, 14, 0, 0⟩ := by decide
example : DT.ofSecs (DT.toSecs ⟨2000, 2, 29, 23, 59, 59⟩) = ⟨2000, 2, 29, 23, 59, 59⟩ := by decide
example : DT.ofSecs (DT.toSecs ⟨1, 1, 1, 0, 0, 0⟩) = ⟨1, 1, 1, 0, 0, 0⟩ := by decide
example : DT.ofSecs (DT.toSecs ⟨9999, 12, 31, 23, 59, 59⟩) = ⟨9999, 12, 31, 23, 59, 59⟩ := by decide
example : fmtCanon ⟨2023, 6, 15, 9, 0, 0⟩ = "2023-06-15 09:00:00" := by decide

/- ----------------------------------------------------------------
   The compact-timestamp normalizers (`parse_hospitalization_date`,
   `parse_ccda_date`).  The two Python functions have identical
   bodies; both are embedded literally.  Only `ValueError` is caught
   by the `except` clause, so an `OverflowError` from the datetime
   subtraction escapes to the caller.
   ---------------------------------------------------------------- -/

/-- The `try:` body shared by both normalizers. -/
def ccdaDateBody (cs : List Char) : Except PyErr (Option String) :=
  if cs.length ≥ 8 then
    match strptime14 (cs.take 14) with
    | none => .error .valueError
    | some dt =>
      if cs.length > 14 then
        let offset := cs.drop 14
        match pyInt ⟨offset.take 3⟩ with
        | .error e => .error e
        | .ok hours =>
          match pyInt ⟨offset.drop 3⟩ with
          | .error e => .error e
          | .ok minutes =>
            match dtSubSecs dt (hours * 3600 + minutes * 60) with
            | .error e => .error e
            | .ok dt2 => .ok (some (fmtCanon dt2))
      else .ok (some (fmtCanon dt))
  else .ok none

/-- `parse_hospitalization_date` (parse_xml.py lines 113-129).  The
argument is `Option String` because Python callers can pass `None`. -/
def parse_hospitalization_date (date_str : Option String) : Except PyErr (Option String) :=
  match date_str with
  | none => .ok none
  | some s =>
    if s = "" then .ok none
    else
      match ccdaDateBody s.data with
      | .error .valueError => .ok none
      | r => r

/-- `parse_ccda_date` (parse_xml.py lines 255-271): the same body as
`parse_hospitalization_date`, embedded a second time. -/
def parse_ccda_date (ccda_date : Option String) : Except PyErr (Option String) :=
  match ccda_date with
  | none => .ok none
  | some s =>
    if s = "" then .ok none
    else
      match ccdaDateBody s.data with
      | .error .valueError => .ok none
      | r => r

example : parse_hospitalization_date (some "20230615140000+0500")
    = .ok (some "2023-06-15 09:00:00") := by decide
example : parse_hospitalization_date (some "20230615140000-0530")
    = .ok (some "2023-06-15 18:30:00") := by decide
example : parse_hospitalization_date (some "20230615140000")
    = .ok (some "2023-06-15 14:00:00") := by decide
example : parse_hospitalization_date (some "20230615") = .ok none := by decide
example : parse_hospitalization_date (some "1234567") = .ok none := by decide
example : parse_hospitalization_date (some "garbage-data") = .ok none := by decide
example : parse_hospitalization_date none = .ok none := by decide
example : parse_hospitalization_date (some "99991231235959-0500")
    = .error .overflowError := by decide

/- ----------------------------------------------------------------
   `extract_dosage`: the dosage regex
   `(\d*\.?\d+(?:\s*[A-Za-z]+)(?:/\s*[A-Za-z]+)?)` from the source,
   and the reformatting substitution
   `re.sub(r"(\d*\.?\d+)([A-Za-z]+)", r"\1 \2", ...)`.
   ---------------------------------------------------------------- -/

def isAsciiLetter (c : Char) : Bool :=
  ('A' ≤ c ∧ c ≤ 'Z') || ('a' ≤ c ∧ c ≤ 'z')

/-- Match `\d*\.?\d+` at the head of the input.  After greedy matching
with backtracking this accepts a maximal digit run, optionally extended
by a dot and a second maximal digit run, or a dot followed by digits;
no shorter alternative can ever satisfy the continuation because the
following character after a shorter candidate is a digit or a dot. -/
def numMatch (cs : List Char) : Option (List Char × List Char) :=
  let d1 := cs.takeWhile Char.isDigit
  let r1 := cs.dropWhile Char.isDigit
  if d1 ≠ [] then
    match r1 with
    | '.' :: r2 =>
      let d2 := r2.takeWhile Char.isDigit
      if d2 ≠ [] then some (d1 ++ '.' :: d2, r2.dropWhile Char.isDigit)
      else some (d1, r1)
    | _ => some (d1, r1)
  else
    match cs with
    | '.' :: r2 =>
      let d2 := r2.takeWhile Char.isDigit
      if d2 ≠ [] then some ('.' :: d2, r2.dropWhile Char.isDigit)
      else none
    | _ => none

/-- Match the whole dosage pattern at the head of the input, returning
the matched characters and the rest. -/
def dosageMatchAt (cs : List Char) : Option (List Char) :=
  match numMatch cs with
  | none => none
  | some (num, r1) =>
    let ws := r1.takeWhile pyIsSpace
    let r2 := r1.dropWhile pyIsSpace
    let letters := r2.takeWhile isAsciiLetter
    let r3 := r2.dropWhile isAsciiLetter
    if letters = [] then none
    else
      match r3 with
      | '/' :: r4 =>
        let ws2 := r4.takeWhile pyIsSpace
        let r5 := r4.dropWhile pyIsSpace
        let letters2 := r5.takeWhile isAsciiLetter
        if letters2 = [] then some (num ++ ws ++ letters)
        else some (num ++ ws ++ letters ++ '/' :: ws2 ++ letters2)
      | _ => some (num ++ ws ++ letters)

/-- `re.search`: try the pattern at each position, leftmost first. -/
def dosageSearch : List Char → Option (List Char)
  | [] => none
  | c :: rest =>
    match dosageMatchAt (c :: rest) with
    | some m => some m
    | none => dosageSearch rest

/-- Match `(\d*\.?\d+)([A-Za-z]+)` at the head: a number immediately
followed by letters. -/
def numLetAt (cs : List Char) : Option (List Char × List Char × List Char) :=
  match numMatch cs with
  | none => none
  | some (num, r1) =>
    let letters := r1.takeWhile isAsciiLetter
    if letters = [] then none
    else some (num, letters, r1.dropWhile isAsciiLetter)

/-- `re.sub(r"(\d*\.?\d+)([A-Za-z]+)", r"\1 \2", s)`: replace every
non-overlapping match, left to right.  Fuel starts at `cs.length + 1`;
every step consumes at least one character. -/
def subNumLetAux : Nat → List Char → List Char
  | 0, cs => cs
  | fuel + 1, cs =>
    match numLetAt cs with
    | some (num, letters, rest) => num ++ ' ' :: letters ++ subNumLetAux fuel rest
    | none =>
      match cs with
      | [] => []
      | c :: rest => c :: subNumLetAux fuel rest

def subNumLet (cs : List Char) : List Char :=
  subNumLetAux (cs.length + 1) cs

/-- `extract_dosage` (parse_xml.py lines 273-289).  An empty name is
falsy in Python, so both results are `None` for it. -/
def extract_dosage (medication_name : String) : Option String × Option String :=
  if medication_name = "" then (none, none)
  else
    match dosageSearch medication_name.data with
    | some m =>
      let cleaned := pyStrip (pyReplace medication_name ⟨m⟩ "")
      let cleaned := collapseWS cleaned
      (some ⟨subNumLet m⟩, some cleaned)
    | none => (none, some medication_name)

example : extract_dosage "Aspirin 81mg" = (some "81 mg", some "Aspirin") := by decide
example : extract_dosage "Amlodipine 5 mg tab" = (some "5 mg", some "Amlodipine tab") := by decide
example : extract_dosage "TMP/SMX 80mg/400mg" = (some "80 mg", some "TMP/SMX /400mg") := by decide
example : extract_dosage "Drug 80mg/ml daily" = (some "80 mg/ml", some "Drug daily") := by decide
example : extract_dosage "Unknown" = (none, some "Unknown") := by decide
example : extract_dosage "" = (none, none) := by decide
example : extract_dosage "5mg" = (some "5 mg", some "") := by decide
example : extract_dosage "B 5  mg 5  mg" = (some "5  mg", some "B") := by decide
example : extract_dosage "A 5mg 10mg" = (some "5 mg", some "A 10mg") := by decide
example : extract_dosage "A 10mg" = (some "10 mg", some "A") := by decide
example : extract_dosage "Vitamin D 0.5mcg" = (some "0.5 mcg", some "Vitamin D") := by decide

/- ----------------------------------------------------------------
   XML element tree and the lxml lookups used by the extractors.
   All elements of interest live in the single `urn:hl7-org:v3`
   namespace, so tags are modelled by their local names.
   ---------------------------------------------------------------- -/

/-- An XML element: tag, attributes, text, children. -/
inductive Xml where
  | elem (tag : String) (attrs : List (String × String)) (text : Option String)
         (children : List Xml)

def Xml.tag : Xml → String
  | .elem t _ _ _ => t

def Xml.attrs : Xml → List (String × String)
  | .elem _ a _ _ => a

def Xml.text : Xml → Option String
  | .elem _ _ x _ => x

def Xml.children : Xml → List Xml
  | .elem _ _ _ cs => cs

/-- `element.get(key)`. -/
def Xml.attr (x : Xml) (key : String) : Option String :=
  (x.attrs.find? fun p => p.1 = key).map Prod.snd

/-- `element.get(key, default)`. -/
def Xml.attrD (x : Xml) (key dflt : String) : String :=
  (x.attr key).getD dflt

mutual
/-- All proper descendants in document (preorder) order, as iterated
by `.//` lookups. -/
def Xml.descendants : Xml → List Xml
  | .elem _ _ _ cs => Xml.descList cs
def Xml.descList : List Xml → List Xml
  | [] => []
  | c :: cs => c :: (Xml.descendants c ++ Xml.descList cs)
end

/-- All descendants with a given tag (`.//tag` as a list). -/
def Xml.descTag (x : Xml) (t : String) : List Xml :=
  x.descendants.filter fun c => c.tag = t

/-- `element.find(".//tag")`: first matching descendant or None. -/
def Xml.findDesc (x : Xml) (t : String) : Option Xml :=
  (x.descTag t).head?

/-- Children with a given tag. -/
def Xml.childTag (x : Xml) (t : String) : List Xml :=
  x.children.filter fun c => c.tag = t

/-- `element.find("tag")`: first matching child or None. -/
def Xml.findChild (x : Xml) (t : String) : Option Xml :=
  (x.childTag t).head?

/-- A relative child path `t1/t2/...`, as iterated by ElementPath. -/
def Xml.childPath (x : Xml) : List String → List Xml
  | [] => [x]
  | t :: ts => (x.childTag t).flatMap fun c => c.childPath ts

/-- `element.findall(".//t1/t2/...")`: descendants named `t1`, then
the remaining steps as child steps. -/
def Xml.descPath (x : Xml) (t : String) (ts : List String) : List Xml :=
  (x.descTag t).flatMap fun c => c.childPath ts

/-- `element.find(".//t1/t2/...")`. -/
def Xml.findDescPath (x : Xml) (t : String) (ts : List String) : Option Xml :=
  (x.descPath t ts).head?

/-- `element.findtext("t1/t2", "")`: text of the first match, with
`""` both for a missing element and for empty text. -/
def Xml.findTextPath (x : Xml) (t : String) (ts : List String) : String :=
  match (x.childTag t).flatMap (fun c => c.childPath ts) with
  | [] => ""
  | e :: _ => e.text.getD ""

/-- Truthiness of an optional string (Python `if s:` where `s` is
`None` or a `str`). -/
def pyTruthy : Option String → Bool
  | none => false
  | some s => s ≠ ""

def dexA : Xml := .elem "a" [("k", "v")] none
  [.elem "b" [] (some "t1") [.elem "c" [] none []],
   .elem "b" [] none [.elem "d" [] (some "t2") []]]

example : (dexA.descTag "b").length = 2 := by decide
example : dexA.findDesc "c" = some (.elem "c" [] none []) := rfl
example : dexA.findDescPath "b" ["d"] = some (.elem "d" [] (some "t2") []) := rfl
example : dexA.findTextPath "b" [] = "t1" := by decide
example : dexA.attr "k" = some "v" := by decide
example : dexA.attr "z" = none := by decide

/- ----------------------------------------------------------------
   `parse_patient_data` (parse_xml.py lines 33-111)
   ---------------------------------------------------------------- -/

/-- `", ".join` / `" ".join` over a list of strings. -/
def joinSep (sep : String) : List String → String
  | [] => ""
  | [x] => x
  | x :: xs => x ++ sep ++ joinSep sep xs

/-- Deduplicate, keeping first occurrences (`set(...)` before sorting). -/
def dedupAux (seen : List String) : List String → List String
  | [] => []
  | x :: xs => if seen.contains x then dedupAux seen xs else x :: dedupAux (x :: seen) xs

/-- Ascending insertion sort (`sorted(...)`). -/
def insertSorted (s : String) : List String → List String
  | [] => [s]
  | x :: xs => if s < x then s :: x :: xs else x :: insertSorted s xs

def sortStrings (l : List String) : List String := l.foldr insertSorted []

/-- The normalization applied inside each telecom branch:
`value if value.lower() not in ["none", "null"] else "None"`. -/
def normTele (v : String) : String :=
  if pyLower v = "none" ∨ pyLower v = "null" then "None" else v

/-- `telecom.get("use", "").strip().lower()`. -/
def telecomUse (t : Xml) : String := pyLower (pyStrip (t.attrD "use" ""))

/-- `telecom.get("value", "").replace("tel:", "").replace("mailto:", "").strip()`. -/
def telecomValue (t : Xml) : String :=
  pyStrip (pyReplace (pyReplace (t.attrD "value" "") "tel:" "") "mailto:" "")

/-- One iteration of the telecom loop over the state
`(home_phone, mobile_phone, email)`. -/
def telecomStep (st : String × String × String) (t : Xml) : String × String × String :=
  let v := telecomValue t
  let u := telecomUse t
  if containsSub u.data "hp".data then (normTele v, st.2.1, st.2.2)
  else if containsSub u.data "mc".data then (st.1, normTele v, st.2.2)
  else if containsSub u.data "h".data ∧ containsSub v.data "mailto".data then
    (st.1, st.2.1, normTele v)
  else st

/-- The whole telecom loop of `parse_patient_data`, starting from the
defaults `("None", "None", "None")`. -/
def telecomScan (root : Xml) : String × String × String :=
  (root.descPath "patientRole" ["telecom"]).foldl telecomStep ("None", "None", "None")

/-- The dictionary built by `parse_patient_data`.  Fields whose Python
value can be `None` are `Option String`. -/
structure PatientRecord where
  patient_id : Option String
  first_name : String
  last_name : String
  dob : Option String
  gender : Option String
  race : Option String
  ethnicity : Option String
  marital_status : Option String
  address : String
  home_phone : String
  mobile_phone : String
  email : String
  language : String
deriving DecidableEq, Repr

/-- `parse_patient_data` (parse_xml.py lines 33-111).  Returns `none`
for the empty dictionary `{}`. -/
def parse_patient_data (root : Xml) : Option PatientRecord :=
  match root.findDesc "patientRole" with
  | none => none
  | some _ =>
    let patient_id := match root.findDesc "id" with
      | some e => e.attr "extension"
      | none => some "N/A"
    let patient_role := root.findDescPath "recordTarget" ["patientRole"]
    let patient := match patient_role with
      | some pr => pr.findChild "patient"
      | none => none
    let given_names := match patient with
      | some p => p.childPath ["name", "given"]
      | none => []
    let family_name := match patient with
      | some p => p.findTextPath "name" ["family"]
      | none => ""
    let given_texts := given_names.filterMap fun n =>
      match n.text with
      | some t => if t ≠ "" then some t else none
      | none => none
    let first_name := pyStrip (joinSep " " given_texts)
    let last_name := pyStrip family_name
    let dob0 : Option String := match patient with
      | some p =>
        match p.findChild "birthTime" with
        | some e => e.attr "value"
        | none => none
      | none => none
    let dob := if pyTruthy dob0 then
        match strptimeYmd (dob0.getD "").data with
        | some dt => some (fmtDateOnly dt)
        | none => none
      else dob0
    let displayOf : Option Xml → Option String := fun el =>
      match el with
      | some e => e.attr "displayName"
      | none => some "N/A"
    let gender := displayOf (root.findDescPath "patient" ["administrativeGenderCode", "translation"])
    let race := displayOf (root.findDescPath "patient" ["raceCode", "translation"])
    let ethnicity := displayOf (root.findDescPath "patient" ["ethnicGroupCode", "translation"])
    let marital_status := displayOf (root.findDescPath "patient" ["maritalStatusCode", "translation"])
    let address := match patient_role with
      | some pr =>
        match pr.findChild "addr" with
        | some ae =>
          let parts := [ae.findTextPath "streetAddressLine" [], ae.findTextPath "city" [],
                        ae.findTextPath "state" [], ae.findTextPath "postalCode" []]
          joinSep ", " (parts.filter fun p => p ≠ "")
        | none => "N/A"
      | none => "N/A"
    let tele := telecomScan root
    let language_codes := (root.descPath "languageCommunication" ["languageCode"]).filterMap
      fun e => e.attr "code"
    let language := if language_codes ≠ [] then
        joinSep ", " (sortStrings (dedupAux [] (language_codes.map pyLower)))
      else "N/A"
    some { patient_id := patient_id, first_name := first_name, last_name := last_name,
           dob := dob, gender := gender, race := race, ethnicity := ethnicity,
           marital_status := marital_status, address := address,
           home_phone := tele.1, mobile_phone := tele.2.1, email := tele.2.2,
           language := language }

/- ----------------------------------------------------------------
   `parse_hospitalizations` (parse_xml.py lines 131-193)
   ---------------------------------------------------------------- -/

/-- `.//ns0:section[ns0:code[@code='...']]`. -/
def sectionsWithCode (root : Xml) (code : String) : List Xml :=
  (root.descTag "section").filter fun s =>
    (s.childTag "code").any fun c => c.attr "code" == some code

/-- `.//ns0:section[ns0:templateId[@root='...']]`. -/
def sectionsWithTemplate (root : Xml) (tid : String) : List Xml :=
  (root.descTag "section").filter fun s =>
    (s.childTag "templateId").any fun c => c.attr "root" == some tid

/-- `element.text.strip()`: raises `AttributeError` when the element
has no text (`None.strip()`). -/
def textStrip (x : Xml) : Except PyErr String :=
  match x.text with
  | none => .error .attributeError
  | some t => .ok (pyStrip t)

structure HospRecord where
  encounter_type : String
  location : String
  admission_date : Option String
  discharge_date : Option String
  diagnoses : List String
  providers : List String
  informants : List String
deriving DecidableEq, Repr

/-- The loop body of `parse_hospitalizations` for one encounter. -/
def hospOfEncounter (enc : Xml) : Except PyErr HospRecord := do
  let encounter_type := match (enc.descTag "code").filterMap (fun c => c.attr "displayName") with
    | [] => "Unknown"
    | c :: _ => pyStrip c
  let dates ← match enc.descTag "effectiveTime" with
    | [] => pure ((none : Option String), (none : Option String))
    | et :: _ => do
      let adm ← match (et.descTag "low").filterMap (fun e => e.attr "value") with
        | [] => pure none
        | l :: _ => parse_hospitalization_date (some l)
      let dis ← match (et.descTag "high").filterMap (fun e => e.attr "value") with
        | [] => pure none
        | h :: _ => parse_hospitalization_date (some h)
      pure (adm, dis)
  let diagnoses := (enc.descPath "entryRelationship"
    ["act", "entryRelationship", "observation", "value"]).filterMap fun e => e.attr "displayName"
  let location ← match enc.descPath "participant" ["participantRole", "playingEntity", "name"] with
    | [] => pure "Unknown"
    | l :: _ => textStrip l
  let providers ← (enc.descPath "performer"
    ["assignedEntity", "representedOrganization", "name"]).mapM textStrip
  let informants ← (enc.descPath "informant"
    ["assignedEntity", "representedOrganization", "name"]).mapM textStrip
  pure ⟨encounter_type, location, dates.1, dates.2, diagnoses, providers, informants⟩

/-- `parse_hospitalizations` (parse_xml.py lines 131-193). -/
def parse_hospitalizations (root : Xml) : Except PyErr (List HospRecord) :=
  match sectionsWithCode root "46240-8" with
  | [] => .ok []
  | sec :: _ => (sec.descPath "entry" ["encounter"]).mapM hospOfEncounter

/- ----------------------------------------------------------------
   `parse_diagnoses` (parse_xml.py lines 195-253)
   ---------------------------------------------------------------- -/

structure DiagEntry where
  diagnosis_description : String
  diagnosis_date : String
  icd10_code : Option String
  severity : String
deriving DecidableEq, Repr

/-- `re.match(r'problem-\d+', s)`: the prefix `problem-` followed by at
least one digit. -/
def matchProblemId (s : String) : Bool :=
  "problem-".data.isPrefixOf s.data &&
    (match s.data.drop 8 with
     | c :: _ => c.isDigit
     | [] => false)

/-- Match width-`w` digits and continue with `k` on the rest. -/
def numThen (w : Nat) (cs : List Char) (k : List Char → Bool) : Bool :=
  let pre := cs.take w
  decide (pre.length = w) && pre.all Char.isDigit && k (cs.drop w)

/-- `re.match(r'\d{1,2}/\d{1,2}/\d{4}', s)`: a prefix match, greedy
widths with backtracking. -/
def matchSlashDate (cs : List Char) : Bool :=
  let d4 : List Char → Bool := fun r => numThen 4 r fun _ => true
  let slash2 : List Char → Bool := fun r =>
    match r with
    | '/' :: r2 => d4 r2
    | _ => false
  let second : List Char → Bool := fun r => numThen 2 r slash2 || numThen 1 r slash2
  let slash1 : List Char → Bool := fun r =>
    match r with
    | '/' :: r2 => second r2
    | _ => false
  numThen 2 cs slash1 || numThen 1 cs slash1

/-- The problem-name loop: the first `td` holding a `content` element
whose `ID` is the row id plus `-problem` supplies the name; its missing
text raises `AttributeError`. -/
def nameLoop (cid : String) : List Xml → Except PyErr (Option String)
  | [] => .ok none
  | td :: rest =>
    match (td.descTag "content").filter (fun c => c.attr "ID" == some cid) with
    | [] => nameLoop cid rest
    | c :: _ =>
      match c.text with
      | none => .error .attributeError
      | some t => .ok (some (pyStrip t))

/-- The date loop: the first `td` whose first `content` has text
matching the `m/d/Y` pattern supplies the date, reformatted through
`strptime` when possible and kept verbatim otherwise. -/
def dateLoop : List Xml → Option String
  | [] => none
  | td :: rest =>
    match td.descTag "content" with
    | [] => dateLoop rest
    | c :: _ =>
      match c.text with
      | none => dateLoop rest
      | some t =>
        if t ≠ "" ∧ matchSlashDate t.data then
          let date_str := pyStrip t
          match strptimeNarrative date_str.data with
          | some dt => some (fmtCanon dt)
          | none => some date_str
        else dateLoop rest

/-- `.//ns0:entry[.//ns0:text/ns0:reference[@value='#<pid>']]`. -/
def entriesReferencing (root : Xml) (pid : String) : List Xml :=
  (root.descTag "entry").filter fun e =>
    (e.descTag "text").any fun t =>
      (t.childTag "reference").any fun r => r.attr "value" == some ("#" ++ pid)

/-- The tail of the row body: the guard `if problem_name and date:` and
the dictionary construction, where `translation.attrib[...]` raises
`KeyError` for a missing attribute. -/
def diagFinish (pname date : Option String) (translation : Option Xml) :
    Except PyErr (Option DiagEntry) :=
  if pyTruthy pname ∧ pyTruthy date then
    match translation with
    | some tr =>
      match tr.attr "code" with
      | none => .error .keyError
      | some icd =>
        match tr.attr "displayName" with
        | none => .error .keyError
        | some dn => .ok (some ⟨pname.getD "", date.getD "", some icd, dn⟩)
    | none => .ok (some ⟨pname.getD "", date.getD "", none, ""⟩)
  else .ok none

/-- The loop body of `parse_diagnoses` for one table row. -/
def diagRowStep (root tr : Xml) : Except PyErr (Option DiagEntry) :=
  match tr.attr "ID" with
  | none => .ok none
  | some pid =>
    if pid = "" ∨ ¬matchProblemId pid then .ok none
    else
      match nameLoop (pid ++ "-problem") (tr.descTag "td") with
      | .error e => .error e
      | .ok pname =>
        let date := dateLoop (tr.descTag "td")
        match entriesReferencing root pid with
        | [] => .error .indexError
        | entry :: _ =>
          let translation := ((entry.descTag "translation").filter
            fun t => t.attr "codeSystemName" == some "ICD-10").head?
          diagFinish pname date translation

def diagLoop (root : Xml) : List Xml → Except PyErr (List DiagEntry)
  | [] => .ok []
  | tr :: rest =>
    match diagRowStep root tr with
    | .error e => .error e
    | .ok r =>
      match diagLoop root rest with
      | .error e => .error e
      | .ok es =>
        match r with
        | none => .ok es
        | some e => .ok (e :: es)

/-- `parse_diagnoses` (parse_xml.py lines 195-253). -/
def parse_diagnoses (root : Xml) : Except PyErr (List DiagEntry) :=
  match sectionsWithTemplate root "2.16.840.1.113883.10.20.22.2.5.1" with
  | [] => .ok []
  | sec :: _ =>
    match sec.descTag "tbody" with
    | [] => .ok []
    | tb :: _ => diagLoop root (tb.descTag "tr")

/- ----------------------------------------------------------------
   `parse_medications` (parse_xml.py lines 291-327)
   ---------------------------------------------------------------- -/

structure MedEntry where
  medication_name : String
  dosage : Option String
  start_date : Option String
  instructions : String
deriving DecidableEq, Repr

/-- The loop body of `parse_medications` for one `entry` element.
A missing `manufacturedMaterial/code` element defaults the name to
`"Unknown"` before the `is None` skip check, so only a present code
element without a `displayName` attribute is skipped. -/
def medOfEntry (entry : Xml) : Except PyErr (Option MedEntry) :=
  match entry.findDesc "substanceAdministration" with
  | none => .ok none
  | some sa =>
    let name_elem := sa.findDescPath "manufacturedMaterial" ["code"]
    let medication_name : Option String :=
      match name_elem with
      | some e => e.attr "displayName"
      | none => some "Unknown"
    match medication_name with
    | none => .ok none
    | some mn =>
      let dc := extract_dosage mn
      match dc.2 with
      | none => .error .attributeError
      | some cn =>
        let titled := pyTitle cn
        let finalName := if titled = "" then "Unknown" else titled
        let sd : Except PyErr (Option String) :=
          match sa.findDescPath "effectiveTime" ["low"] with
          | some lo => parse_ccda_date (lo.attr "value")
          | none => .ok none
        let instr : Except PyErr String :=
          match entry.findDescPath "entryRelationship" ["act", "text"] with
          | some ie =>
            match ie.text with
            | none => .error .attributeError
            | some t => .ok (pyCapitalize t)
          | none => .ok "No specific instructions"
        match sd with
        | .error e => .error e
        | .ok start_date =>
          match instr with
          | .error e => .error e
          | .ok instructions => .ok (some ⟨finalName, dc.1, start_date, instructions⟩)

def medLoop : List Xml → Except PyErr (List MedEntry)
  | [] => .ok []
  | e :: rest =>
    match medOfEntry e with
    | .error err => .error err
    | .ok r =>
      match medLoop rest with
      | .error err => .error err
      | .ok ms =>
        match r with
        | none => .ok ms
        | some m => .ok (m :: ms)

/-- `parse_medications` (parse_xml.py lines 291-327). -/
def parse_medications (root : Xml) : Except PyErr (List MedEntry) :=
  match sectionsWithCode root "10160-0" with
  | [] => .ok []
  | sec :: _ => medLoop (sec.descTag "entry")

/- ----------------------------------------------------------------
   Per-document orchestration (`process_xml_files`, lines 488-504):
   all four extractors run; the records are persisted only when the
   patient dictionary is truthy (nonempty).
   ---------------------------------------------------------------- -/

structure DocRecords where
  patient : PatientRecord
  hospitalizations : List HospRecord
  diagnoses : List DiagEntry
  medications : List MedEntry
deriving DecidableEq, Repr

/-- One document of `process_xml_files`: `some records` means the
records were handed to the insert statements, `none` that the document
was skipped; an error is an uncaught exception. -/
def processDocument (root : Xml) : Except PyErr (Option DocRecords) :=
  let pd := parse_patient_data root
  match parse_hospitalizations root with
  | .error e => .error e
  | .ok hs =>
    match parse_diagnoses root with
    | .error e => .error e
    | .ok ds =>
      match parse_medications root with
      | .error e => .error e
      | .ok ms =>
        match pd with
        | none => .ok none
        | some p => .ok (some ⟨p, hs, ds, ms⟩)

/- ----------------------------------------------------------------
   Concrete documents used by the counterexamples and witnesses
   ---------------------------------------------------------------- -/

/-- A document with no `patientRole` element at all. -/
def docEmpty : Xml := .elem "ClinicalDocument" [] none []

/-- A document with a `patientRole` element but no `id` element
anywhere: no patient identifier is resolvable. -/
def docNoId : Xml :=
  .elem "ClinicalDocument" [] none [.elem "patientRole" [] none []]

/-- A problems section with a narrative row `problem-1` and no coded
entry referencing it. -/
def docDanglingRow : Xml :=
  .elem "ClinicalDocument" [] none
    [.elem "section" [] none
      [.elem "templateId" [("root", "2.16.840.1.113883.10.20.22.2.5.1")] none [],
       .elem "text" [] none
         [.elem "table" [] none
           [.elem "tbody" [] none
             [.elem "tr" [("ID", "problem-1")] none []]]]]]

/-- An encounters section whose encounter has a location `name`
element with no text. -/
def docEmptyLocation : Xml :=
  .elem "ClinicalDocument" [] none
    [.elem "section" [] none
      [.elem "code" [("code", "46240-8")] none [],
       .elem "entry" [] none
         [.elem "encounter" [] none
           [.elem "participant" [] none
             [.elem "participantRole" [] none
               [.elem "playingEntity" [] none
                 [.elem "name" [] none []]]]]]]]

/-- A medications entry whose `substanceAdministration` has no
`manufacturedMaterial/code` element: the medication name is not
resolvable. -/
def docMedNoCode : Xml :=
  .elem "ClinicalDocument" [] none
    [.elem "section" [] none
      [.elem "code" [("code", "10160-0")] none [],
       .elem "entry" [] none
         [.elem "substanceAdministration" [] none []]]]

/-- A medications entry whose code element is present but carries no
`displayName` attribute. -/
def docMedNoDisplay : Xml :=
  .elem "ClinicalDocument" [] none
    [.elem "section" [] none
      [.elem "code" [("code", "10160-0")] none [],
       .elem "entry" [] none
         [.elem "substanceAdministration" [] none
           [.elem "manufacturedMaterial" [] none
             [.elem "code" [("codeSystem", "RxNorm")] none []]]]]]

/-- A complete diagnosis document: row `problem-1` with narrative name
and date and a coded entry with an ICD-10 translation. -/
def docDiagFull : Xml :=
  .elem "ClinicalDocument" [] none
    [.elem "section" [] none
      [.elem "templateId" [("root", "2.16.840.1.113883.10.20.22.2.5.1")] none [],
       .elem "text" [] none
         [.elem "table" [] none
           [.elem "tbody" [] none
             [.elem "tr" [("ID", "problem-1")] none
               [.elem "td" [] none
                 [.elem "content" [("ID", "problem-1-problem")] (some "Hypertension") []],
                .elem "td" [] none
                 [.elem "content" [] (some "06/15/2023 02:30:00 PM") []]]]]],
       .elem "entry" [] none
         [.elem "act" [] none
           [.elem "text" [] none
             [.elem "reference" [("value", "#problem-1")] none []],
            .elem "observation" [] none
             [.elem "value" [] none
               [.elem "translation"
                 [("codeSystemName", "ICD-10"), ("code", "I10"),
                  ("displayName", "Essential hypertension")] none []]]]]]]

/-- A patient document with telecom entries exercising every branch of
the classifier: home phone, mobile phone, and a null-like value. -/
def docTelecom : Xml :=
  .elem "ClinicalDocument" [] none
    [.elem "recordTarget" [] none
      [.elem "patientRole" [] none
        [.elem "id" [("extension", "123")] none [],
         .elem "telecom" [("use", "HP"), ("value", "tel:555-1212")] none [],
         .elem "telecom" [("use", "MC"), ("value", "tel:555-9999")] none [],
         .elem "telecom" [("use", "WP"), ("value", "tel:555-0000")] none []]]]

/-- Like `docTelecom` but the home-phone value is the string "NULL". -/
def docTelecomNull : Xml :=
  .elem "ClinicalDocument" [] none
    [.elem "recordTarget" [] none
      [.elem "patientRole" [] none
        [.elem "id" [("extension", "123")] none [],
         .elem "telecom" [("use", "HP"), ("value", "NULL")] none []]]]

/- ----------------------------------------------------------------
   Claim theorems
   ---------------------------------------------------------------- -/

/-- C10: `parse_hospitalization_date` and `parse_ccda_date` are
extensionally the same function: for every input the two compact
timestamp normalizers return equal results. -/
theorem c10_normalizers_agree (x : Option String) :
    parse_hospitalization_date x = parse_ccda_date x := rfl

/-- C4: the normalizer is not exception-free.  A compact timestamp
shorter than 8 characters does yield an absent result, but the
`except ValueError` clause does not cover the `OverflowError` raised
when the offset subtraction leaves the representable datetime range,
so `"99991231235959-0500"` raises to the caller. -/
theorem c4_overflow_escapes :
    parse_hospitalization_date (some "99991231235959-0500") = .error .overflowError ∧
    parse_hospitalization_date (some "1234567") = .ok none ∧
    parse_hospitalization_date (some "garbage-data") = .ok none :=
  ⟨by decide, by decide, by decide⟩

/-- C2: the extractors do raise on missing optional structure.  A
narrative row `problem-1` without a coded entry referencing it makes
`parse_diagnoses` raise `IndexError` (the `[0]` on line 242), and an
encounter location `name` element without text makes
`parse_hospitalizations` raise `AttributeError` (`None.strip()` on
line 179). -/
theorem c2_extractors_raise :
    parse_diagnoses docDanglingRow = .error .indexError ∧
    parse_hospitalizations docEmptyLocation = .error .attributeError :=
  ⟨by decide, by decide⟩

/-- The record actually produced for `docNoId`. -/
def patientNA : PatientRecord :=
  ⟨some "N/A", "", "", none, some "N/A", some "N/A", some "N/A", some "N/A",
   "N/A", "None", "None", "None", "N/A"⟩

def docRecordsNA : DocRecords := ⟨patientNA, [], [], []⟩

/-- C1 counterexample: `docNoId` has no `id` element anywhere — no
patient identifier is resolvable — yet `parse_patient_data` returns a
nonempty record with the placeholder identifier `"N/A"`, and the
orchestrator persists the full record set for the document. -/
theorem c1_counterexample :
    docNoId.findDesc "id" = none ∧
    parse_patient_data docNoId = some patientNA ∧
    patientNA.patient_id = some "N/A" ∧
    processDocument docNoId = .ok (some docRecordsNA) :=
  ⟨rfl, by decide, rfl, by decide⟩

/-- C1 amended: the Patient extractor returns the empty result exactly
when the document has no `patientRole` element (not when the patient
id is unresolvable), and records are persisted only when the extractor
returned a record — the persisted patient record is the extractor's
result. -/
theorem c1_empty_iff_no_patientRole (root : Xml) :
    (parse_patient_data root = none ↔ root.findDesc "patientRole" = none) ∧
    (∀ recs : DocRecords, processDocument root = .ok (some recs) →
      parse_patient_data root = some recs.patient) := by
  constructor
  · constructor
    · intro h
      cases hf : root.findDesc "patientRole" with
      | none => rfl
      | some x => rw [parse_patient_data, hf] at h; simp at h
    · intro h
      rw [parse_patient_data, h]
  · intro recs h
    rw [processDocument] at h
    cases hh : parse_hospitalizations root with
    | error e => rw [hh] at h; simp at h
    | ok hs =>
      rw [hh] at h
      cases hd : parse_diagnoses root with
      | error e => rw [hd] at h; simp at h
      | ok ds =>
        rw [hd] at h
        cases hm : parse_medications root with
        | error e => rw [hm] at h; simp at h
        | ok ms =>
          rw [hm] at h
          cases hp : parse_patient_data root with
          | none => rw [hp] at h; simp at h
          | some p =>
            rw [hp] at h
            simp at h
            rw [← h]

/-- C1 witness: the amended theorem applied to `docNoId`, whose record
set is persisted, and to `docEmpty`, which has no `patientRole`. -/
theorem c1_witness :
    parse_patient_data docNoId = some docRecordsNA.patient ∧
    parse_patient_data docEmpty = none :=
  ⟨(c1_empty_iff_no_patientRole docNoId).2 docRecordsNA (by decide),
   (c1_empty_iff_no_patientRole docEmpty).1.mpr rfl⟩

/-- The code element of `docMedNoDisplay`: no `displayName`. -/
def codeNoDisplay : Xml := .elem "code" [("codeSystem", "RxNorm")] none []

def saNoDisplay : Xml :=
  .elem "substanceAdministration" [] none
    [.elem "manufacturedMaterial" [] none [codeNoDisplay]]

def medEntryNoDisplay : Xml := .elem "entry" [] none [saNoDisplay]

/-- C5 counterexample: an entry whose `manufacturedMaterial/code`
element is absent has an unresolvable medication name, yet
`parse_medications` keeps it with the placeholder name `"Unknown"`. -/
theorem c5_counterexample :
    (Xml.elem "substanceAdministration" [] none []).findDescPath
      "manufacturedMaterial" ["code"] = none ∧
    parse_medications docMedNoCode =
      .ok [⟨"Unknown", none, none, "No specific instructions"⟩] :=
  ⟨rfl, by decide⟩

/-- C5 amended: only an entry whose code element is present but lacks
a `displayName` attribute is skipped; when the code element is absent
altogether, the entry is kept and its name is the placeholder
`"Unknown"`. -/
theorem c5_skip_behavior (e sa : Xml)
    (h : e.findDesc "substanceAdministration" = some sa) :
    (∀ ne : Xml, sa.findDescPath "manufacturedMaterial" ["code"] = some ne →
      ne.attr "displayName" = none → medOfEntry e = .ok none) ∧
    (sa.findDescPath "manufacturedMaterial" ["code"] = none →
      ∀ m : MedEntry, medOfEntry e = .ok (some m) → m.medication_name = "Unknown") := by
  constructor
  · intro ne hne hattr
    simp only [medOfEntry, h, hne, hattr]
  · intro hnone m hm
    have hed : extract_dosage "Unknown" = (none, some "Unknown") := by decide
    have hti : pyTitle "Unknown" = "Unknown" := by decide
    simp only [medOfEntry, h, hnone, hed, hti] at hm
    split at hm <;> try split at hm
    all_goals simp_all
    exact hm ▸ rfl

/-- C5 witness: the amended theorem applied to a concrete entry whose
code element has no `displayName`. -/
theorem c5_witness : medOfEntry medEntryNoDisplay = .ok none :=
  (c5_skip_behavior medEntryNoDisplay saNoDisplay rfl).1 codeNoDisplay rfl rfl

/-- A truthy optional string is a nonempty string. -/
theorem pyTruthy_getD (o : Option String) (h : pyTruthy o = true) : o.getD "" ≠ "" := by
  cases o with
  | none => simp [pyTruthy] at h
  | some s => simpa [pyTruthy] using h

theorem diagFinish_fields (p dt : Option String) (tr : Option Xml) (e : DiagEntry)
    (h : diagFinish p dt tr = .ok (some e)) :
    e.diagnosis_description ≠ "" ∧ e.diagnosis_date ≠ "" := by
  rw [diagFinish.eq_def] at h
  split at h
  case isTrue htr =>
    have hp := pyTruthy_getD p htr.1
    have hd := pyTruthy_getD dt htr.2
    split at h
    case h_1 trx =>
      split at h
      case h_1 => simp at h
      case h_2 icd hicd =>
        split at h
        case h_1 => simp at h
        case h_2 dn hdn =>
          injection h with h'
          injection h' with h''
          rw [← h'']
          exact ⟨hp, hd⟩
    case h_2 =>
      injection h with h'
      injection h' with h''
      rw [← h'']
      exact ⟨hp, hd⟩
  case isFalse =>
    simp at h

theorem diagRowStep_some (root tr : Xml) (e : DiagEntry)
    (h : diagRowStep root tr = .ok (some e)) :
    ∃ p dt trn, diagFinish p dt trn = .ok (some e) := by
  rw [diagRowStep] at h
  split at h
  case h_1 => simp at h
  case h_2 pid hpid =>
    split at h
    · simp at h
    · split at h
      case h_1 => simp at h
      case h_2 pname hname =>
        split at h
        case h_1 => simp at h
        case h_2 entry rest hentry => exact ⟨_, _, _, h⟩

theorem diagLoop_mem (root : Xml) (trs : List Xml) (l : List DiagEntry) (e : DiagEntry)
    (h : diagLoop root trs = .ok l) (he : e ∈ l) :
    ∃ tr, diagRowStep root tr = .ok (some e) := by
  induction trs generalizing l with
  | nil =>
    rw [diagLoop] at h
    injection h with h'
    subst h'
    simp at he
  | cons tr rest ih =>
    rw [diagLoop] at h
    split at h
    case h_1 => simp at h
    case h_2 r hr =>
      split at h
      case h_1 => simp at h
      case h_2 es hes =>
        split at h
        case h_1 =>
          injection h with h'
          subst h'
          exact ih es hes he
        case h_2 e' =>
          injection h with h'
          subst h'
          cases he with
          | head => exact ⟨tr, hr⟩
          | tail _ hmem => exact ih es hes hmem

/-- C6: every diagnosis entry returned by `parse_diagnoses` carries a
nonempty description and a nonempty date — a table row that fails to
resolve either contributes no entry, thanks to the
`if problem_name and date:` guard. -/
theorem c6_diagnoses_complete (root : Xml) (l : List DiagEntry)
    (h : parse_diagnoses root = .ok l) :
    ∀ e ∈ l, e.diagnosis_description ≠ "" ∧ e.diagnosis_date ≠ "" := by
  intro e he
  rw [parse_diagnoses] at h
  split at h
  case h_1 =>
    injection h with h'
    subst h'
    simp at he
  case h_2 sec rest hsec =>
    split at h
    case h_1 =>
      injection h with h'
      subst h'
      simp at he
    case h_2 tb rest2 htb =>
      obtain ⟨tr, htr⟩ := diagLoop_mem root (tb.descTag "tr") l e h he
      obtain ⟨p, dt, trn, hf⟩ := diagRowStep_some root tr e htr
      exact diagFinish_fields p dt trn e hf

/-- The entry produced for `docDiagFull`, as in the spec's end-to-end
scenario. -/
def diagHypertension : DiagEntry :=
  ⟨"Hypertension", "2023-06-15 14:30:00", some "I10", "Essential hypertension"⟩

/-- C6 witness: the theorem applied to the complete diagnosis
document. -/
theorem c6_witness :
    diagHypertension.diagnosis_description ≠ "" ∧ diagHypertension.diagnosis_date ≠ "" :=
  c6_diagnoses_complete docDiagFull [diagHypertension] (by decide) diagHypertension (by decide)

/-- C8 counterexample: cleaning is not idempotent.  `"A 5mg 10mg"`
cleans to `"A 10mg"`, which still contains a digit+unit substring, so
re-running the splitter extracts `"10 mg"` instead of returning the
name unchanged with an absent dosage. -/
theorem c8_counterexample :
    extract_dosage "A 5mg 10mg" = (some "5 mg", some "A 10mg") ∧
    extract_dosage "A 10mg" = (some "10 mg", some "A") ∧
    extract_dosage "A 10mg" ≠ ((none : Option String), some "A 10mg") :=
  ⟨by decide, by decide, by decide⟩

/-- C8 amended: the splitter returns a nonempty name unchanged with an
absent dosage exactly when the name contains no match of the dosage
pattern; a cleaned name can still contain such a match, so idempotence
on cleaned names fails in general. -/
theorem c8_no_match_id (s : String) (hs : s ≠ "") :
    extract_dosage s = (none, some s) ↔ dosageSearch s.data = none := by
  rw [extract_dosage]
  rw [if_neg hs]
  constructor
  · intro h
    cases hm : dosageSearch s.data with
    | none => rfl
    | some m => rw [hm] at h; simp at h
  · intro h
    rw [h]

/-- C8 witness: the amended equivalence applied to a name with no
digit+unit substring. -/
theorem c8_witness : extract_dosage "Lisinopril" = (none, some "Lisinopril") :=
  (c8_no_match_id "Lisinopril" (by decide)).mpr (by decide)

/-- C7 counterexample: on `"B 5  mg 5  mg"` the first match is
`"5  mg"`.  The code removes **every** occurrence of that substring
(`str.replace`), so the cleaned name is `"B"` rather than the claimed
`"B 5 mg"`; and the returned dosage keeps its original two spaces —
the substitution only inserts a space where digits are immediately
followed by letters — so it is not single-spaced either. -/
theorem c7_counterexample :
    extract_dosage "B 5  mg 5  mg" = (some "5  mg", some "B") ∧
    (some "5  mg", some "B") ≠ ((some "5 mg" : Option String), (some "B 5 mg" : Option String)) :=
  ⟨by decide, by decide⟩

/-- C7 amended: the splitter extracts the leftmost match of the dosage
pattern; the cleaned name is the original with **all** occurrences of
that substring removed and whitespace collapsed; a nonempty name with
no match passes through unchanged with an absent dosage; and the
returned dosage has a space inserted wherever digits are immediately
followed by letters.  The third conjunct states leftmostness: the
returned match occurs at a position before which no position
matches. -/
theorem c7_dosage_split :
    (∀ s : String, s ≠ "" → dosageSearch s.data = none →
      extract_dosage s = (none, some s)) ∧
    (∀ (s : String) (m : List Char), dosageSearch s.data = some m →
      extract_dosage s =
        (some ⟨subNumLet m⟩, some (collapseWS (pyStrip (pyReplace s ⟨m⟩ ""))))) ∧
    (∀ (cs m : List Char), dosageSearch cs = some m →
      ∃ n, dosageMatchAt (cs.drop n) = some m ∧
        ∀ k, k < n → dosageMatchAt (cs.drop k) = none) := by
  refine ⟨?_, ?_, ?_⟩
  · intro s hs h
    rw [extract_dosage, if_neg hs, h]
  · intro s m h
    have hs : s ≠ "" := by
      intro he
      subst he
      simp [dosageSearch] at h
    rw [extract_dosage, if_neg hs, h]
  · intro cs
    induction cs with
    | nil => intro m h; simp [dosageSearch] at h
    | cons c rest ih =>
      intro m h
      rw [dosageSearch] at h
      cases hd : dosageMatchAt (c :: rest) with
      | some m' =>
        rw [hd] at h
        injection h with h'
        subst h'
        exact ⟨0, hd, by omega⟩
      | none =>
        rw [hd] at h
        obtain ⟨n, hn, hlt⟩ := ih m h
        refine ⟨n + 1, hn, ?_⟩
        intro k hk
        cases k with
        | zero => exact hd
        | succ j => exact hlt j (by omega)

/-- C7 witness: the amended description applied to a concrete combined
name. -/
theorem c7_witness : extract_dosage "Aspirin 81mg" = (some "81 mg", some "Aspirin") := by
  have h := c7_dosage_split.2.1 "Aspirin 81mg" "81mg".data (by decide)
  exact h.trans (by decide)

/-- C9: telecom classification.  Each entry lands in exactly one class
following the decision order (home-phone marker first, then mobile,
then home-like marker with an email-marked value, else unclassified),
updating only that class's field; a value whose lower case reads
`none` or `null` is stored as the `"None"` sentinel; among several
entries of the same class the last in document order wins; and on
concrete documents, use `"HP"` with `tel:555-1212` yields home phone
`555-1212`, `"MC"` yields the mobile phone, and value `"NULL"` is
normalized to `"None"`. -/
theorem c9_telecom_classification :
    (∀ (st : String × String × String) (t : Xml),
      containsSub (telecomUse t).data "hp".data = true →
      telecomStep st t = (normTele (telecomValue t), st.2.1, st.2.2)) ∧
    (∀ (st : String × String × String) (t : Xml),
      containsSub (telecomUse t).data "hp".data = false →
      containsSub (telecomUse t).data "mc".data = true →
      telecomStep st t = (st.1, normTele (telecomValue t), st.2.2)) ∧
    (∀ (st : String × String × String) (t : Xml),
      containsSub (telecomUse t).data "hp".data = false →
      containsSub (telecomUse t).data "mc".data = false →
      containsSub (telecomUse t).data "h".data = true →
      containsSub (telecomValue t).data "mailto".data = true →
      telecomStep st t = (st.1, st.2.1, normTele (telecomValue t))) ∧
    (∀ (st : String × String × String) (t : Xml),
      containsSub (telecomUse t).data "hp".data = false →
      containsSub (telecomUse t).data "mc".data = false →
      ¬(containsSub (telecomUse t).data "h".data = true ∧
        containsSub (telecomValue t).data "mailto".data = true) →
      telecomStep st t = st) ∧
    (∀ v : String, normTele v = "None" ↔ (pyLower v = "none" ∨ pyLower v = "null")) ∧
    (∀ (ts : List Xml) (t : Xml) (st : String × String × String),
      containsSub (telecomUse t).data "hp".data = true →
      ((ts ++ [t]).foldl telecomStep st).1 = normTele (telecomValue t)) ∧
    (parse_patient_data docTelecom).map (fun r => (r.home_phone, r.mobile_phone, r.email))
      = some ("555-1212", "555-9999", "None") ∧
    (parse_patient_data docTelecomNull).map (fun r => r.home_phone) = some "None" := by
  refine ⟨?_, ?_, ?_, ?_, ?_, ?_, by decide, by decide⟩
  · intro st t h
    simp [telecomStep, h]
  · intro st t h1 h2
    simp [telecomStep, h1, h2]
  · intro st t h1 h2 h3 h4
    simp [telecomStep, h1, h2, h3, h4]
  · intro st t h1 h2 h3
    simp only [telecomStep, h1, h2]
    simp only [Bool.false_eq_true, if_false]
    rw [if_neg h3]
  · intro v
    constructor
    · intro h
      by_cases hv : pyLower v = "none" ∨ pyLower v = "null"
      · exact hv
      · rw [normTele, if_neg hv] at h
        subst h
        exact Or.inl (by decide)
    · intro h
      rw [normTele, if_pos h]
  · intro ts t st h
    rw [List.foldl_append]
    simp [telecomStep, h]

/-- C9 witness: branch one of the classification applied to a concrete
telecom element. -/
theorem c9_witness :
    telecomStep ("None", "None", "None")
      (.elem "telecom" [("use", "HP"), ("value", "tel:555-1212")] none [])
      = ("555-1212", "None", "None") := by
  have h := c9_telecom_classification.1 ("None", "None", "None")
    (.elem "telecom" [("use", "HP"), ("value", "tel:555-1212")] none []) (by decide)
  exact h.trans (by decide)

/- ----------------------------------------------------------------
   C3: the compact-timestamp normalizer on well-formed inputs
   ---------------------------------------------------------------- -/

theorem digitChar_isDigit (k : Nat) (hk : k ≤ 9) : (digitChar k).isDigit = true := by
  interval_cases k <;> decide

theorem digitVal_digitChar (k : Nat) (hk : k ≤ 9) : digitVal (digitChar k) = k := by
  interval_cases k <;> decide

theorem digitChar_not_space (k : Nat) (hk : k ≤ 9) : pyIsSpace (digitChar k) = false := by
  interval_cases k <;> decide

theorem digitChar_ne_plus (k : Nat) (hk : k ≤ 9) : digitChar k ≠ '+' := by
  interval_cases k <;> decide

theorem digitChar_ne_minus (k : Nat) (hk : k ≤ 9) : digitChar k ≠ '-' := by
  interval_cases k <;> decide

theorem daysInMonth_le (y m : Nat) : daysInMonth y m ≤ 31 := by
  rw [daysInMonth]
  split
  · split <;> omega
  · split <;> omega

theorem takeBranch_two (lo hi x : Nat) (rest : List Char)
    (hx : x ≤ 99) (hlo : lo ≤ x) (hhi : x ≤ hi) :
    takeBranch ⟨2, lo, hi⟩ (pad2 x ++ rest) = some (x, rest) := by
  have h1 : x / 10 % 10 ≤ 9 := by omega
  have h2 : x % 10 ≤ 9 := by omega
  have hv : 10 * (x / 10 % 10) + x % 10 = x := by omega
  simp only [pad2, List.cons_append, List.nil_append, takeBranch,
    digitChar_isDigit _ h1, digitChar_isDigit _ h2,
    digitVal_digitChar _ h1, digitVal_digitChar _ h2, and_self, if_true, hv]
  rw [if_pos ⟨hlo, hhi⟩]

theorem takeBranch_four (lo hi x : Nat) (rest : List Char)
    (hx : x ≤ 9999) (hlo : lo ≤ x) (hhi : x ≤ hi) :
    takeBranch ⟨4, lo, hi⟩ (pad4 x ++ rest) = some (x, rest) := by
  have h1 : x / 1000 % 10 ≤ 9 := by omega
  have h2 : x / 100 % 10 ≤ 9 := by omega
  have h3 : x / 10 % 10 ≤ 9 := by omega
  have h4 : x % 10 ≤ 9 := by omega
  have hv : 1000 * (x / 1000 % 10) + 100 * (x / 100 % 10) + 10 * (x / 10 % 10) + x % 10 = x := by
    omega
  simp only [pad4, List.cons_append, List.nil_append, takeBranch,
    digitChar_isDigit _ h1, digitChar_isDigit _ h2, digitChar_isDigit _ h3,
    digitChar_isDigit _ h4, digitVal_digitChar _ h1, digitVal_digitChar _ h2,
    digitVal_digitChar _ h3, digitVal_digitChar _ h4, and_self, if_true, hv]
  rw [if_pos ⟨hlo, hhi⟩]

theorem runFmt_num_first (b : FBranch) (bs : List FBranch) (ts : List FTok)
    (xs rest : List Char) (v : Nat) (vs : List Nat)
    (h1 : takeBranch b xs = some (v, rest)) (h2 : runFmt ts rest = some vs) :
    runFmt (.num (b :: bs) :: ts) xs = some (v :: vs) := by
  rw [runFmt, List.findSome?_cons, h1]
  simp [h2]

/-- `strptime("%Y%m%d%H%M%S")` on a zero-padded 14-digit rendering of
valid datetime components recovers the components: the two-digit
branches match throughout, and no backtracking into one-digit
branches can occur because the total width is exactly `4 + 5 * 2`. -/
theorem strptime14_pad (y m d h mi s : Nat)
    (hy1 : 1 ≤ y) (hy : y ≤ 9999) (hm1 : 1 ≤ m) (hm : m ≤ 12)
    (hd1 : 1 ≤ d) (hd : d ≤ daysInMonth y m)
    (hh : h ≤ 23) (hmi : mi ≤ 59) (hs : s ≤ 59) :
    strptime14 (pad4 y ++ (pad2 m ++ (pad2 d ++ (pad2 h ++ (pad2 mi ++ pad2 s)))))
      = some ⟨y, m, d, h, mi, s⟩ := by
  have hd31 : d ≤ 31 := le_trans hd (daysInMonth_le y m)
  have t6 : takeBranch ⟨2, 0, 59⟩ (pad2 s ++ []) = some (s, []) :=
    takeBranch_two 0 59 s [] (by omega) (by omega) hs
  rw [List.append_nil] at t6
  have r1 : runFmt [] ([] : List Char) = some [] := rfl
  have r2 := runFmt_num_first ⟨2, 0, 59⟩ [⟨1, 0, 9⟩] [] (pad2 s) [] s [] t6 r1
  have t5 := takeBranch_two 0 59 mi (pad2 s) (by omega) (by omega) hmi
  have r3 := runFmt_num_first ⟨2, 0, 59⟩ [⟨1, 0, 9⟩] [fMS] (pad2 mi ++ pad2 s) (pad2 s)
    mi [s] t5 r2
  have t4 := takeBranch_two 0 23 h (pad2 mi ++ pad2 s) (by omega) (by omega) hh
  have r4 := runFmt_num_first ⟨2, 0, 23⟩ [⟨1, 0, 9⟩] [fMS, fMS]
    (pad2 h ++ (pad2 mi ++ pad2 s)) (pad2 mi ++ pad2 s) h [mi, s] t4 r3
  have t3 := takeBranch_two 1 31 d (pad2 h ++ (pad2 mi ++ pad2 s)) (by omega) hd1 hd31
  have r5 := runFmt_num_first ⟨2, 1, 31⟩ [⟨1, 1, 9⟩] [fH, fMS, fMS]
    (pad2 d ++ (pad2 h ++ (pad2 mi ++ pad2 s))) (pad2 h ++ (pad2 mi ++ pad2 s))
    d [h, mi, s] t3 r4
  have t2 := takeBranch_two 1 12 m (pad2 d ++ (pad2 h ++ (pad2 mi ++ pad2 s)))
    (by omega) hm1 hm
  have r6 := runFmt_num_first ⟨2, 1, 12⟩ [⟨1, 1, 9⟩] [fd, fH, fMS, fMS]
    (pad2 m ++ (pad2 d ++ (pad2 h ++ (pad2 mi ++ pad2 s))))
    (pad2 d ++ (pad2 h ++ (pad2 mi ++ pad2 s))) m [d, h, mi, s] t2 r5
  have t1 := takeBranch_four 0 9999 y
    (pad2 m ++ (pad2 d ++ (pad2 h ++ (pad2 mi ++ pad2 s)))) hy (by omega) hy
  have r7 := runFmt_num_first ⟨4, 0, 9999⟩ [] [fm, fd, fH, fMS, fMS]
    (pad4 y ++ (pad2 m ++ (pad2 d ++ (pad2 h ++ (pad2 mi ++ pad2 s)))))
    (pad2 m ++ (pad2 d ++ (pad2 h ++ (pad2 mi ++ pad2 s)))) y [m, d, h, mi, s] t1 r6
  rw [strptime14]
  simp only [fY, fm, fd, fH, fMS] at r7 ⊢
  rw [r7]
  show mkDatetime y m d h mi s = some ⟨y, m, d, h, mi, s⟩
  rw [mkDatetime, if_pos ⟨hy1, hy, hm1, hm, hd1, hd, hh, hmi, hs⟩]

theorem dropWhile_all_neg (p : Char → Bool) (cs : List Char)
    (h : ∀ c ∈ cs, p c = false) : cs.dropWhile p = cs := by
  cases cs with
  | nil => rfl
  | cons c rest =>
    rw [List.dropWhile_cons, h c (List.mem_cons_self c rest)]
    simp

theorem pyStripL_id (cs : List Char) (h : ∀ c ∈ cs, pyIsSpace c = false) :
    pyStripL cs = cs := by
  rw [pyStripL, dropWhile_all_neg _ _ h, dropWhile_all_neg, List.reverse_reverse]
  intro c hc
  exact h c (List.mem_reverse.mp hc)

theorem pad2_no_space (x : Nat) (hx : x ≤ 99) :
    ∀ c ∈ pad2 x, pyIsSpace c = false := by
  intro c hc
  simp only [pad2, List.mem_cons, List.not_mem_nil, or_false] at hc
  rcases hc with hc | hc <;> subst hc
  · exact digitChar_not_space _ (by omega)
  · exact digitChar_not_space _ (by omega)

theorem digitsVal_pad2 (x : Nat) (hx : x ≤ 99) : digitsVal (pad2 x) = x := by
  have h1 : x / 10 % 10 ≤ 9 := by omega
  have h2 : x % 10 ≤ 9 := by omega
  simp only [pad2, digitsVal, List.foldl_cons, List.foldl_nil,
    digitVal_digitChar _ h1, digitVal_digitChar _ h2]
  omega

theorem pad2_all_digits (x : Nat) (hx : x ≤ 99) : (pad2 x).all Char.isDigit = true := by
  simp only [pad2, List.all_cons, List.all_nil,
    digitChar_isDigit _ (show x / 10 % 10 ≤ 9 by omega),
    digitChar_isDigit _ (show x % 10 ≤ 9 by omega)]
  rfl

theorem pyInt_plus_pad2 (x : Nat) (hx : x ≤ 99) :
    pyInt ⟨'+' :: pad2 x⟩ = .ok (x : Int) := by
  have hid : pyStripL ('+' :: pad2 x) = '+' :: pad2 x := by
    apply pyStripL_id
    intro c hc
    rcases List.mem_cons.mp hc with hc | hc
    · subst hc; decide
    · exact pad2_no_space x hx c hc
  have hne : pad2 x ≠ [] := by simp [pad2]
  have hall := pad2_all_digits x hx
  have hdv := digitsVal_pad2 x hx
  simp only [pyInt, hid]
  rw [if_pos trivial, if_pos ⟨hne, hall⟩, hdv]
  rfl

theorem pyInt_minus_pad2 (x : Nat) (hx : x ≤ 99) :
    pyInt ⟨'-' :: pad2 x⟩ = .ok (-(x : Int)) := by
  have hid : pyStripL ('-' :: pad2 x) = '-' :: pad2 x := by
    apply pyStripL_id
    intro c hc
    rcases List.mem_cons.mp hc with hc | hc
    · subst hc; decide
    · exact pad2_no_space x hx c hc
  have hne : pad2 x ≠ [] := by simp [pad2]
  have hall := pad2_all_digits x hx
  have hdv := digitsVal_pad2 x hx
  simp only [pyInt, hid]
  rw [if_neg (by decide), if_pos trivial, if_pos ⟨hne, hall⟩, hdv]
  rfl

theorem pyInt_pad2 (x : Nat) (hx : x ≤ 99) :
    pyInt ⟨pad2 x⟩ = .ok (x : Int) := by
  have h1 : x / 10 % 10 ≤ 9 := by omega
  have hid : pyStripL (pad2 x) = pad2 x := pyStripL_id _ (pad2_no_space x hx)
  have hall := pad2_all_digits x hx
  have hdv := digitsVal_pad2 x hx
  have hp : pad2 x = digitChar (x / 10 % 10) :: [digitChar (x % 10)] := rfl
  have hid2 : pyStripL [digitChar (x / 10 % 10), digitChar (x % 10)]
      = [digitChar (x / 10 % 10), digitChar (x % 10)] := hp ▸ hid
  simp only [pyInt, hp, hid2]
  rw [if_neg (digitChar_ne_plus _ h1), if_neg (digitChar_ne_minus _ h1),
    if_pos ⟨List.cons_ne_nil _ _, hp ▸ hall⟩,
    show digitsVal [digitChar (x / 10 % 10), digitChar (x % 10)] = x from hp ▸ hdv]
  rfl

theorem pad2_length (x : Nat) : (pad2 x).length = 2 := rfl

theorem pad4_length (x : Nat) : (pad4 x).length = 4 := rfl

/-- The 14 digits of a compact timestamp. -/
def tsA (y m d h mi s : Nat) : List Char :=
  pad4 y ++ (pad2 m ++ (pad2 d ++ (pad2 h ++ (pad2 mi ++ pad2 s))))

/-- The signed 4-digit offset of a compact timestamp. -/
def tsB (plus : Bool) (hh mm : Nat) : List Char :=
  (if plus then '+' else '-') :: (pad2 hh ++ pad2 mm)

/-- The compact timestamp `YYYYMMDDHHMMSS±HHMM` built from components. -/
def compactTS (y m d h mi s : Nat) (plus : Bool) (hh mm : Nat) : String :=
  ⟨tsA y m d h mi s ++ tsB plus hh mm⟩

/-- The normalization described by the claim: parse the 14 digits as a
local timestamp and subtract the signed offset, whose magnitude is
hours = first two offset digits and minutes = last two; rendered in
the canonical form, or absent when the result leaves the datetime
range. -/
def claimNormalize (y m d h mi s : Nat) (plus : Bool) (hh mm : Nat) : Option String :=
  let r : Int := ((DT.toSecs ⟨y, m, d, h, mi, s⟩ : Nat) : Int) -
    (if plus then (1 : Int) else -1) * ((hh : Int) * 3600 + (mm : Int) * 60)
  if (dtMinSecs : Int) ≤ r ∧ r ≤ (dtMaxSecs : Int) then
    some (fmtCanon (DT.ofSecs r.toNat))
  else none

/-- C3 counterexample: for the negative offset `-0530` the code
subtracts `int("-05") = -5` hours but then subtracts the minutes with
a positive sign, landing at 18:30, while subtracting the signed offset
-05:30 as the claim states would land at 19:30. -/
theorem c3_counterexample :
    compactTS 2023 6 15 14 0 0 false 5 30 = "20230615140000-0530" ∧
    parse_hospitalization_date (some "20230615140000-0530") = .ok (some "2023-06-15 18:30:00") ∧
    claimNormalize 2023 6 15 14 0 0 false 5 30 = some "2023-06-15 19:30:00" ∧
    ("2023-06-15 18:30:00" : String) ≠ "2023-06-15 19:30:00" :=
  ⟨by decide, by decide, by decide, by decide⟩

/-- Computation of the `try` body on a 19-character input whose pieces
parse: the offset is split after the third character and the two
`int(...)` results feed the timedelta subtraction. -/
theorem ccdaDateBody_struct (cs : List Char) (dt : DT) (hours minutes : Int)
    (hlen : cs.length = 19)
    (hst : strptime14 (cs.take 14) = some dt)
    (hp1 : pyInt (String.mk ((cs.drop 14).take 3)) = .ok hours)
    (hp2 : pyInt (String.mk ((cs.drop 14).drop 3)) = .ok minutes) :
    ccdaDateBody cs = (match dtSubSecs dt (hours * 3600 + minutes * 60) with
      | Except.error e => Except.error e
      | Except.ok dt2 => Except.ok (some (fmtCanon dt2))) := by
  rw [ccdaDateBody, hlen, if_pos (by omega), hst]
  show (match pyInt (String.mk ((cs.drop 14).take 3)) with
    | Except.error e => Except.error e
    | Except.ok hours =>
      match pyInt (String.mk ((cs.drop 14).drop 3)) with
      | Except.error e => Except.error e
      | Except.ok minutes =>
        match dtSubSecs dt (hours * 3600 + minutes * 60) with
        | Except.error e => Except.error e
        | Except.ok dt2 => Except.ok (some (fmtCanon dt2))) = _
  rw [hp1, hp2]

/-- C3 amended: for a well-formed compact timestamp with a signed
4-digit offset, the normalizer subtracts the signed hour part together
with the **unsigned** minute part.  Whenever the offset is nonnegative,
or its minute digits are zero, this agrees with subtracting the signed
offset as the claim states; in particular `20230615140000+0500`
normalizes to `2023-06-15 09:00:00`. -/
theorem c3_compact_normalization (y m d h mi s : Nat) (plus : Bool) (hh mm : Nat)
    (out : String)
    (hy1 : 1 ≤ y) (hy : y ≤ 9999) (hm1 : 1 ≤ m) (hm : m ≤ 12)
    (hd1 : 1 ≤ d) (hd : d ≤ daysInMonth y m)
    (hhr : h ≤ 23) (hmi : mi ≤ 59) (hs : s ≤ 59) (hhh : hh ≤ 99) (hmm : mm ≤ 99)
    (hsign : plus = true ∨ mm = 0)
    (hcn : claimNormalize y m d h mi s plus hh mm = some out) :
    parse_hospitalization_date (some (compactTS y m d h mi s plus hh mm)) = .ok (some out) := by
  have hL : (tsA y m d h mi s ++ tsB plus hh mm).length = 19 := by
    simp [tsA, tsB, List.length_append, pad2_length, pad4_length]
  have hne : compactTS y m d h mi s plus hh mm ≠ "" := by
    intro hc
    have h1 := congrArg String.data hc
    have h2 := congrArg List.length h1
    rw [show (compactTS y m d h mi s plus hh mm).data
      = tsA y m d h mi s ++ tsB plus hh mm from rfl, hL] at h2
    simp at h2
  have hst : strptime14 ((tsA y m d h mi s ++ tsB plus hh mm).take 14)
      = some ⟨y, m, d, h, mi, s⟩ := by
    rw [show (tsA y m d h mi s ++ tsB plus hh mm).take 14 = tsA y m d h mi s from rfl]
    exact strptime14_pad y m d h mi s hy1 hy hm1 hm hd1 hd hhr hmi hs
  have hpi1 : pyInt (String.mk (((tsA y m d h mi s ++ tsB plus hh mm).drop 14).take 3))
      = .ok (if plus then (hh : Int) else -(hh : Int)) := by
    have hsp : ((tsA y m d h mi s ++ tsB plus hh mm).drop 14).take 3
        = (if plus then '+' else '-') :: pad2 hh := by
      cases plus <;> rfl
    rw [hsp]
    cases plus
    · exact pyInt_minus_pad2 hh hhh
    · exact pyInt_plus_pad2 hh hhh
  have hpi2 : pyInt (String.mk (((tsA y m d h mi s ++ tsB plus hh mm).drop 14).drop 3))
      = .ok (mm : Int) := by
    have hsp : ((tsA y m d h mi s ++ tsB plus hh mm).drop 14).drop 3 = pad2 mm := by
      cases plus <;> rfl
    rw [hsp]
    exact pyInt_pad2 mm hmm
  have hoff : (if plus then (hh : Int) else -(hh : Int)) * 3600 + (mm : Int) * 60
      = (if plus then (1 : Int) else -1) * ((hh : Int) * 3600 + (mm : Int) * 60) := by
    rcases hsign with hp | hm0
    · subst hp
      simp
    · subst hm0
      cases plus <;> simp
  rw [claimNormalize] at hcn
  obtain ⟨moff, hgen⟩ :
      ∃ v : Int, (if plus then (1 : Int) else -1) * ((hh : Int) * 3600 + (mm : Int) * 60) = v :=
    ⟨_, rfl⟩
  rw [hgen] at hcn hoff
  split at hcn
  case isFalse => simp at hcn
  case isTrue hrange =>
    injection hcn with hout
    have hsubOk : dtSubSecs ⟨y, m, d, h, mi, s⟩ moff
        = .ok (DT.ofSecs ((((DT.mk y m d h mi s).toSecs : Nat) : Int) - moff).toNat) := by
      simp only [dtSubSecs]
      rw [if_pos hrange]
    have hbody := ccdaDateBody_struct (tsA y m d h mi s ++ tsB plus hh mm)
      ⟨y, m, d, h, mi, s⟩ (if plus then (hh : Int) else -(hh : Int)) (mm : Int)
      hL hst hpi1 hpi2
    rw [hoff, hsubOk] at hbody
    have hbody2 : ccdaDateBody (tsA y m d h mi s ++ tsB plus hh mm)
        = Except.ok (some (fmtCanon
            (DT.ofSecs ((((DT.mk y m d h mi s).toSecs : Nat) : Int) - moff).toNat))) := hbody
    rw [parse_hospitalization_date]
    rw [if_neg hne,
      show (compactTS y m d h mi s plus hh mm).data
        = tsA y m d h mi s ++ tsB plus hh mm from rfl,
      hbody2, hout]

/-- C3 witness: the amended theorem applied at the claim's concrete
example, `20230615140000+0500` → `2023-06-15 09:00:00`. -/
theorem c3_witness :
    parse_hospitalization_date (some "20230615140000+0500") = .ok (some "2023-06-15 09:00:00") := by
  have hc : compactTS 2023 6 15 14 0 0 true 5 0 = "20230615140000+0500" := by decide
  have h := c3_compact_normalization 2023 6 15 14 0 0 true 5 0 "2023-06-15 09:00:00"
    (by decide) (by decide) (by decide) (by decide) (by decide) (by decide)
    (by decide) (by decide) (by decide) (by decide) (by decide)
    (Or.inl rfl) (by decide)
  exact hc ▸ h
